import Mathlib

/-!
# Verification of the ascorchat page (`home.py`)

A shallow embedding of the password-gated chat page in `home.py`.
The page is a single script rerun by the web framework on every
interaction; we embed its per-session state (`st.session_state`), the
credential gate (`check_password` / `password_entered`), the transcript
initialization and display loop, and the chat-turn handler with its
RAG-query retry logic, and prove the specified properties about them.
-/

set_option autoImplicit false

namespace Ascorchat

/-- A chat message as stored in `st.session_state.messages`: a dict with a
`role` field (`"system"`, `"user"` or `"assistant"`) and a `content` field. -/
structure Message where
  role : String
  content : String
deriving DecidableEq, Repr

/-- The fields of the per-session `st.session_state` that the page uses:
`password_correct` (the unlocked flag), `password` (the password text-input
widget key, absent when never set or after `del`), and `messages` (the
transcript list, absent until initialized). -/
structure SessionState where
  password_correct : Bool
  password : Option String
  messages : Option (List Message)
deriving DecidableEq, Repr

/-- A fresh session: no flag set, no password key, no transcript. -/
def freshSession : SessionState :=
  { password_correct := false, password := none, messages := none }

/-- Functional value of `hmac.compare_digest` on two strings: byte-for-byte
equality (case-sensitive, no trimming).  Its constant-time execution is a
property of the Python library, not of the value computed. -/
def compare_digest (a b : String) : Bool := a == b

/-- The function `password_entered` (home.py lines 92-99): the `on_change` callback of the
password input.  Reads the candidate from `st.session_state["password"]`;
if `hmac.compare_digest(candidate, APP_PASSWORD)` succeeds it sets
`password_correct = True` and deletes the `password` key, otherwise it sets
`password_correct = False` (and does not delete the key). -/
def password_entered (APP_PASSWORD : String) (s : SessionState) : SessionState :=
  match s.password with
  | none => s
  | some cand =>
    if compare_digest cand APP_PASSWORD then
      { s with password_correct := true, password := none }
    else
      { s with password_correct := false }

/-- One submission of a candidate secret to the gate: the text-input widget
stores the typed value under the `password` key, then the `on_change`
callback `password_entered` runs. -/
def submit_password (APP_PASSWORD cand : String) (s : SessionState) : SessionState :=
  password_entered APP_PASSWORD { s with password := some cand }

/-- The system instruction text of the (dead) initialization block,
home.py lines 150-164. -/
def SYSTEM_PROMPT : String :=
  "You are a neutral assistant that answers questions about the Dutch national election.\n" ++
  "Use only the uploaded party programs as your knowledge base.\n" ++
  "If the answer is not in the documents, say: “I don’t know based on the party programs I have.”\n" ++
  "Always compare positions across parties when more than one program is available.\n" ++
  "Be factual, concise, and neutral.\n" ++
  "No speculation or recommendations. Do not make up information.\n" ++
  "When relevant, provide short citations in the format [Party, year, page].\n" ++
  "Answer format:\n" ++
  "Brief summary (2–3 sentences).\n" ++
  "By party: bullet points of each party’s position, with citations.\n" ++
  "Note missing info (“Party X does not mention this”)."

/-- home.py lines 146-147: `if "messages" not in st.session_state:
st.session_state.messages = []`. -/
def init_messages_empty (m : Option (List Message)) : Option (List Message) :=
  match m with
  | none => some []
  | some l => some l

/-- home.py lines 148-164: a second `if "messages" not in st.session_state:`
block that sets `messages = []` and appends the system-role message.  It
runs only when the `messages` key is still absent at that point. -/
def init_messages_system (m : Option (List Message)) : Option (List Message) :=
  match m with
  | none => some ([] ++ [{ role := "system", content := SYSTEM_PROMPT }])
  | some l => some l

/-- Transcript initialization on each script run: the two guarded blocks of
home.py lines 146-164 in order. -/
def init_messages (m : Option (List Message)) : Option (List Message) :=
  init_messages_system (init_messages_empty m)

/-- home.py lines 166-168: the display loop walks `st.session_state.messages`
in order and shows each message (role bubble and content) unmodified. -/
def render (msgs : List Message) : List Message := msgs

/-- Python `str.strip()` with no arguments: the string with leading and
trailing whitespace removed. -/
def pyStrip (s : String) : String :=
  String.mk (((s.data.dropWhile Char.isWhitespace).reverse.dropWhile Char.isWhitespace).reverse)

/-- The object returned by `qe.query(prompt)`: it may expose a `response`
attribute (`getattr(result, "response", None)`), and always has a `str()`
form. -/
structure RagResult where
  response : Option String
  toStr : String
deriving DecidableEq, Repr

/-- The assignment `response_text = getattr(result, "response", None) or str(result)`
(home.py line 188): Python `or` falls through to `str(result)` when the
`response` attribute is absent (`None`) or an empty (falsy) string. -/
def response_text_of (r : RagResult) : String :=
  match r.response with
  | none => r.toStr
  | some s => if s.isEmpty then r.toStr else s

/-- Outcome of one chat turn: the transcript afterwards, how many times the
cached query engine was cleared and rebuilt (`st.cache_resource.clear()`
followed by `get_query_engine`), and the error text displayed by `st.error`
if the turn was abandoned. -/
structure TurnResult where
  msgs : List Message
  rebuilds : Nat
  errorShown : Option String
deriving DecidableEq, Repr

/-- The chat-turn handler, home.py lines 170-192.  `query n` is the result of
`qe.query(prompt)` on attempt `n` (`0` = the cached engine, `1` = the engine
rebuilt after `st.cache_resource.clear()`); `Except.error e` models the call
raising an exception with text `e`.

The walrus guard `if prompt := st.chat_input(...)` skips the whole block for
a falsy (empty) prompt; `if prompt.strip():` then drops whitespace-only
input.  Otherwise a `user` message is appended, the query is attempted, on
failure the cache is cleared, the engine rebuilt once and the query retried,
and on success one `assistant` message is appended; a failure of the retry
is caught by the outer `except`, which displays the error and appends
nothing. -/
def chat_turn (query : Nat → Except String RagResult) (prompt : String)
    (msgs : List Message) : TurnResult :=
  if prompt.isEmpty then
    { msgs := msgs, rebuilds := 0, errorShown := none }
  else if (pyStrip prompt).isEmpty then
    { msgs := msgs, rebuilds := 0, errorShown := none }
  else
    let msgs1 := msgs ++ [{ role := "user", content := prompt }]
    match query 0 with
    | Except.ok result =>
      { msgs := msgs1 ++ [{ role := "assistant", content := response_text_of result }],
        rebuilds := 0, errorShown := none }
    | Except.error _ =>
      match query 1 with
      | Except.ok result =>
        { msgs := msgs1 ++ [{ role := "assistant", content := response_text_of result }],
          rebuilds := 1, errorShown := none }
      | Except.error e =>
        { msgs := msgs1, rebuilds := 1, errorShown := some ("Something went wrong: " ++ e) }

/-- Python truthiness of `not X` for an optional environment-variable string:
true when the variable is absent (`os.environ.get` returned `None`) or the
empty string. -/
def env_missing : Option String → Bool
  | none => true
  | some s => s.isEmpty

/-- Where the page script stopped, if it did not run to the end. -/
inductive StopReason where
  | missingEnv
  | keyErrorId
  | gateStop
deriving DecidableEq, Repr

/-- Observable outcome of one run of the page script: whether the cached
query engine was loaded (`qe = get_query_engine("context")`, line 53),
whether the password input was rendered, whether the chat logic (transcript
display and input handling) ran, where the script stopped if it did, the
session state afterwards, and how many engine rebuilds the turn performed. -/
structure PageOutcome where
  engineLoaded : Bool
  gateShown : Bool
  chatRan : Bool
  stopped : Option StopReason
  session : SessionState
  rebuilds : Nat
deriving DecidableEq, Repr

/-- One run of the page script, home.py top to bottom:
1. lines 7-12: if `APP_PASSWORD` or `OPENAI_API_KEY` is absent or empty,
   `st.error` then `st.stop()` — nothing further runs;
2. line 15: `uid = st.query_params["id"]` — an unguarded lookup that raises
   `KeyError` when the `id` query parameter is absent, aborting the script
   before the RAG imports (line 18) and engine load (line 53);
3. line 53: the cached query engine is loaded;
4. lines 123-124: `check_password` — if the session is not unlocked the
   password input is shown and `st.stop()` ends the run;
5. lines 143-192: the chat logic: transcript initialization, display loop,
   and the chat-turn handler for the submitted input (if any). -/
def run_page (APP_PASSWORD OPENAI_API_KEY : Option String)
    (query_params_id : Option String) (sess : SessionState)
    (query : Nat → Except String RagResult) (chat_input : Option String) :
    PageOutcome :=
  if env_missing APP_PASSWORD || env_missing OPENAI_API_KEY then
    { engineLoaded := false, gateShown := false, chatRan := false,
      stopped := some StopReason.missingEnv, session := sess, rebuilds := 0 }
  else
    match query_params_id with
    | none =>
      { engineLoaded := false, gateShown := false, chatRan := false,
        stopped := some StopReason.keyErrorId, session := sess, rebuilds := 0 }
    | some _ =>
      if sess.password_correct then
        let sess1 : SessionState := { sess with messages := init_messages sess.messages }
        match chat_input with
        | none =>
          { engineLoaded := true, gateShown := false, chatRan := true,
            stopped := none, session := sess1, rebuilds := 0 }
        | some prompt =>
          let t := chat_turn query prompt (sess1.messages.getD [])
          { engineLoaded := true, gateShown := false, chatRan := true,
            stopped := none, session := { sess1 with messages := some t.msgs },
            rebuilds := t.rebuilds }
      else
        { engineLoaded := true, gateShown := true, chatRan := false,
          stopped := some StopReason.gateStop, session := sess, rebuilds := 0 }

/-- A stub answer source that always fails, for concrete instantiations. -/
def failingQuery : Nat → Except String RagResult :=
  fun _ => Except.error "down"

/-- A stub answer source that always answers `"hello"`. -/
def helloQuery : Nat → Except String RagResult :=
  fun _ => Except.ok { response := some "hello", toStr := "hello" }

/-- If a prompt's stripped form is nonempty, the prompt itself is nonempty. -/
theorem isEmpty_false_of_strip {p : String} (h : (pyStrip p).isEmpty = false) :
    p.isEmpty = false := by
  by_contra hc
  rw [Bool.not_eq_false] at hc
  rw [String.isEmpty_iff] at hc
  subst hc
  exact absurd h (by decide)

/-- C2: for every candidate submitted to the gate, the `password_correct`
flag afterwards equals exact (case-sensitive, untrimmed) string equality of
the candidate with the configured secret: it is set to `true` iff they are
byte-for-byte equal, and explicitly set to `false` on any mismatch,
regardless of the previous session state. -/
theorem C2_unlocked_iff_exact_match (APP_PASSWORD cand : String) (s : SessionState) :
    (submit_password APP_PASSWORD cand s).password_correct = (cand == APP_PASSWORD) := by
  simp only [submit_password, password_entered, compare_digest]
  by_cases h : cand == APP_PASSWORD <;> simp [h]

/-- C7 counterexample: submitting the non-matching candidate `"wrong"`
against the secret `"s3cret"` leaves the submitted value stored in the
session under the `password` key — the claim that the candidate is removed
from session state after every comparison is false on a mismatch. -/
theorem C7_counterexample :
    (submit_password "s3cret" "wrong" freshSession).password = some "wrong" ∧
    ("wrong" : String) ≠ "s3cret" := by decide

/-- C7 amended: the candidate value is removed from session state
immediately after the comparison only when it matches the configured
secret; on a mismatch the session retains the submitted value (the widget
key is not deleted). -/
theorem C7_amended_discard_only_on_match (APP_PASSWORD cand : String) (s : SessionState) :
    (submit_password APP_PASSWORD cand s).password =
      (if cand == APP_PASSWORD then none else some cand) := by
  simp only [submit_password, password_entered, compare_digest]
  by_cases h : cand == APP_PASSWORD <;> simp [h]

/-- C3: submitting an empty or whitespace-only user message leaves the
transcript unchanged, rebuilds nothing and shows no error, whatever answer
source is installed — in particular the result does not depend on the
answer source, so it is never invoked. -/
theorem C3_blank_prompt_is_noop (query : Nat → Except String RagResult)
    (prompt : String) (msgs : List Message) (h : pyStrip prompt = "") :
    chat_turn query prompt msgs = { msgs := msgs, rebuilds := 0, errorShown := none } := by
  unfold chat_turn
  have h0 : ("" : String).isEmpty = true := rfl
  by_cases he : prompt.isEmpty = true <;> simp [he, h, h0]

/-- C3 witness: the whitespace-only prompt `"   "` leaves a one-message
transcript untouched even with an answer source that would fail. -/
theorem C3_blank_prompt_is_noop_witness :
    chat_turn failingQuery "   " [{ role := "user", content := "x" }] =
      { msgs := [{ role := "user", content := "x" }], rebuilds := 0, errorShown := none } :=
  C3_blank_prompt_is_noop failingQuery "   " [{ role := "user", content := "x" }] (by decide)

/-- C4: when the RAG query raises on the first call and the rebuilt engine's
retry succeeds, the turn appends the user message and exactly one assistant
message (no duplicate appends), performs exactly one cache clear+rebuild,
and shows no error. -/
theorem C4_retry_success_appends_once (e : String) (r : RagResult) (prompt : String)
    (msgs : List Message) (h : (pyStrip prompt).isEmpty = false) :
    chat_turn (fun n => if n = 0 then Except.error e else Except.ok r) prompt msgs =
      { msgs := msgs ++ [{ role := "user", content := prompt },
                         { role := "assistant", content := response_text_of r }],
        rebuilds := 1, errorShown := none } := by
  unfold chat_turn
  simp [isEmpty_false_of_strip h, h]

/-- C4 witness: with prompt `"hi"`, a first-call failure `"boom"` and a
retry answering `"hello"`, the transcript gains `[user:hi, assistant:hello]`
with one rebuild. -/
theorem C4_retry_success_appends_once_witness :
    chat_turn (fun n => if n = 0 then Except.error "boom"
                        else Except.ok { response := some "hello", toStr := "hello" }) "hi" [] =
      { msgs := [{ role := "user", content := "hi" },
                 { role := "assistant", content := "hello" }],
        rebuilds := 1, errorShown := none } :=
  C4_retry_success_appends_once "boom" { response := some "hello", toStr := "hello" } "hi" []
    (by decide)

/-- C5: when the RAG query raises on both the first call and the single
retry, the turn appends only the user message (no assistant message), the
failure is surfaced solely as a displayed error string, and the transcript
length is the pre-turn count plus one. -/
theorem C5_double_failure_abandons_turn (e1 e2 : String) (prompt : String)
    (msgs : List Message) (h : (pyStrip prompt).isEmpty = false) :
    chat_turn (fun n => if n = 0 then Except.error e1 else Except.error e2) prompt msgs =
      { msgs := msgs ++ [{ role := "user", content := prompt }],
        rebuilds := 1, errorShown := some ("Something went wrong: " ++ e2) } ∧
    (chat_turn (fun n => if n = 0 then Except.error e1 else Except.error e2) prompt msgs).msgs.length
      = msgs.length + 1 := by
  have heq : chat_turn (fun n => if n = 0 then Except.error e1 else Except.error e2) prompt msgs =
      { msgs := msgs ++ [{ role := "user", content := prompt }],
        rebuilds := 1, errorShown := some ("Something went wrong: " ++ e2) } := by
    unfold chat_turn
    simp [isEmpty_false_of_strip h, h]
  exact ⟨heq, by rw [heq]; simp⟩

/-- C5 witness: with prompt `"hi"` and both attempts failing, the transcript
gains only `user:hi` and the error `"Something went wrong: again"` is shown. -/
theorem C5_double_failure_abandons_turn_witness :
    chat_turn (fun n => if n = 0 then Except.error "boom" else Except.error "again") "hi" [] =
      { msgs := [{ role := "user", content := "hi" }],
        rebuilds := 1, errorShown := some "Something went wrong: again" } :=
  (C5_double_failure_abandons_turn "boom" "again" "hi" [] (by decide)).1

/-- C1: evaluating the code at the claim's scenario.  On a fresh session the
first guarded block (lines 146-147) sets `messages = []`, so the second
guard (line 148) is false and the system-prompt block never runs:
initialization yields an empty transcript.  After one submitted message
`"hi"` answered by a stub returning `"hello"`, `render()` therefore yields
only `[user:hi, assistant:hello]` — two messages, no system-role entry —
contradicting the claimed `[system:X, user:hi, assistant:hello]`. -/
theorem C1_system_prompt_block_is_dead :
    init_messages none = some [] ∧
    render (chat_turn helloQuery "hi" ((init_messages none).getD [])).msgs =
      [{ role := "user", content := "hi" }, { role := "assistant", content := "hello" }] ∧
    ∀ m ∈ (chat_turn helloQuery "hi" ((init_messages none).getD [])).msgs,
      m.role ≠ "system" := by
  refine ⟨rfl, by decide, by decide⟩

/-- Every chat turn extends the prior transcript: the messages afterwards
are the messages before followed by some (possibly empty) appended tail. -/
theorem chat_turn_msgs_extends (query : Nat → Except String RagResult)
    (prompt : String) (msgs : List Message) :
    ∃ tail, (chat_turn query prompt msgs).msgs = msgs ++ tail := by
  unfold chat_turn
  by_cases h1 : prompt.isEmpty = true
  · exact ⟨[], by simp [h1]⟩
  · by_cases h2 : (pyStrip prompt).isEmpty = true
    · exact ⟨[], by simp [h1, h2]⟩
    · rcases hq : query 0 with e | r
      · rcases hq1 : query 1 with e1 | r1
        · exact ⟨[{ role := "user", content := prompt }], by simp [h1, h2, hq, hq1]⟩
        · exact ⟨[{ role := "user", content := prompt },
                  { role := "assistant", content := response_text_of r1 }],
            by simp [h1, h2, hq, hq1]⟩
      · exact ⟨[{ role := "user", content := prompt },
                { role := "assistant", content := response_text_of r }],
          by simp [h1, h2, hq]⟩

/-- C9: the transcript is append-only.  Re-running the initialization on an
already-initialized session leaves the transcript exactly as it was; every
chat turn produces the old transcript followed by a (possibly empty)
appended tail, so earlier messages are preserved unchanged and in order;
and the display loop returns the transcript unmodified. -/
theorem C9_transcript_append_only :
    (∀ l : List Message, init_messages (some l) = some l) ∧
    (∀ (query : Nat → Except String RagResult) (prompt : String) (msgs : List Message),
      ∃ tail, (chat_turn query prompt msgs).msgs = msgs ++ tail) ∧
    (∀ msgs : List Message, render msgs = msgs) :=
  ⟨fun _ => rfl, chat_turn_msgs_extends, fun _ => rfl⟩

/-- C6: the page halts at the environment check exactly when the configured
secret or the upstream API key is absent or empty; when it halts there,
the query engine is never loaded, the gate is never shown and no chat logic
runs; otherwise the run never stops for missing environment variables. -/
theorem C6_env_precondition (ap ok id : Option String) (sess : SessionState)
    (query : Nat → Except String RagResult) (ci : Option String) :
    ((env_missing ap || env_missing ok) = true →
      run_page ap ok id sess query ci =
        { engineLoaded := false, gateShown := false, chatRan := false,
          stopped := some StopReason.missingEnv, session := sess, rebuilds := 0 }) ∧
    ((run_page ap ok id sess query ci).stopped = some StopReason.missingEnv ↔
      (env_missing ap || env_missing ok) = true) := by
  unfold run_page
  by_cases h : (env_missing ap || env_missing ok) = true
  · simp [h]
  · rw [if_neg (by simp [h])]
    refine ⟨fun hh => absurd hh h, ?_⟩
    simp only [h, iff_false]
    cases id with
    | none => simp
    | some u =>
      by_cases hp : sess.password_correct = true
      · cases ci <;> simp [hp]
      · simp [hp]

/-- C6 witness: with an empty secret the page halts before anything runs,
and with both variables set (here nonempty strings) a run with the gate
still locked is not stopped for missing environment variables. -/
theorem C6_env_precondition_witness :
    run_page (some "") (some "k") (some "7") freshSession failingQuery none =
      { engineLoaded := false, gateShown := false, chatRan := false,
        stopped := some StopReason.missingEnv, session := freshSession, rebuilds := 0 } ∧
    ¬ (run_page (some "p") (some "k") (some "7") freshSession failingQuery none).stopped
        = some StopReason.missingEnv :=
  ⟨(C6_env_precondition (some "") (some "k") (some "7") freshSession failingQuery none).1
      (by decide),
   fun hh =>
    absurd ((C6_env_precondition (some "p") (some "k") (some "7") freshSession
      failingQuery none).2.mp hh) (by decide)⟩

/-- C10: when both environment variables are present and nonempty but the
`id` query parameter is absent, the run aborts at the unguarded
`st.query_params["id"]` lookup: the query engine is not loaded, the gate is
not shown and no chat logic runs, whatever the session state or input. -/
theorem C10_missing_id_aborts_page (ap ok : Option String) (sess : SessionState)
    (query : Nat → Except String RagResult) (ci : Option String)
    (hap : env_missing ap = false) (hok : env_missing ok = false) :
    run_page ap ok none sess query ci =
      { engineLoaded := false, gateShown := false, chatRan := false,
        stopped := some StopReason.keyErrorId, session := sess, rebuilds := 0 } := by
  unfold run_page
  simp [hap, hok]

/-- C10 witness: with secret `"p"` and key `"k"` set but no `id` parameter,
an unlocked session submitting `"hi"` still aborts at the parameter
lookup. -/
theorem C10_missing_id_aborts_page_witness :
    run_page (some "p") (some "k") none
        { password_correct := true, password := none, messages := some [] }
        helloQuery (some "hi") =
      { engineLoaded := false, gateShown := false, chatRan := false,
        stopped := some StopReason.keyErrorId,
        session := { password_correct := true, password := none, messages := some [] },
        rebuilds := 0 } :=
  C10_missing_id_aborts_page (some "p") (some "k")
    { password_correct := true, password := none, messages := some [] }
    helloQuery (some "hi") (by decide) (by decide)

end Ascorchat
